import Mathlib

/-!
Verification of the Resilient Invocation Pipeline specification against the
tool-error-handling notebook of this repository.

The notebook defines, in Python:
  * `complex_tool(int_arg: int, float_arg: float, dict_arg: dict) -> int`
    returning `int_arg * float_arg`, invoked through a pydantic schema that
    rejects calls with required fields missing (the recorded notebook output
    shows the resulting ValidationError);
  * `try_except_tool(tool_args, config)` which invokes the tool inside
    try/except and, on an exception, returns a diagnostic f-string;
  * `tool_custom_exception(msg, config)` which wraps any tool failure in
    `CustomToolException(tool_call, exception)`;
  * `exception_to_messages(inputs: dict) -> dict` which pops the
    "exception" entry, builds three history messages and stores them under
    "last_output" in the same dict.

The fallback machinery itself (`Runnable.with_fallbacks`, used to build
`chain_with_fallback` and `self_correcting_chain`) lives in langchain-core
and is not among the source files of this repository; where its behaviour
decides a claim it is modelled from the specification text, and each such
definition says so in its doc comment.

Python floats appearing in the notebook (2.1, 10.5) are embedded as
rationals; the products involved are exact in both systems.
-/

set_option autoImplicit false

namespace ToolErrors

/-- The arguments dictionary of a `complex_tool` call.  Each field of the
pydantic schema is optional here: `none` models the key being absent from
the args dict produced by the model, `some` models its presence.  The
`dict_arg` payload is an association list standing in for a Python dict. -/
structure ToolArgs where
  int_arg : Option Int
  float_arg : Option ℚ
  dict_arg : Option (List (String × String))
  deriving DecidableEq

/-- Tagged failure of an Operation (spec section 7 taxonomy): a pydantic
`ValidationError` carrying the list of required fields that were missing,
or an `ExecutionError` from the Operation body. -/
inductive InvocationError where
  | validation (missing : List String) (message : String)
  | execution (message : String)
  deriving DecidableEq

/-- The required fields of the `complex_tool` pydantic schema that are
absent from an args dict, in schema order, as listed by the recorded
ValidationError output of the notebook. -/
def missingFields (args : ToolArgs) : List String :=
  (if args.int_arg.isSome then [] else ["int_arg"]) ++
    (if args.float_arg.isSome then [] else ["float_arg"]) ++
      (if args.dict_arg.isSome then [] else ["dict_arg"])

/-- `complex_tool.invoke`: pydantic validation of the args dict followed by
the tool body from the source, `return int_arg * float_arg`.  A call with
any required field missing fails with the ValidationError recorded in the
notebook output (message "Field required" listing the missing fields). -/
def complex_tool_invoke (args : ToolArgs) : Except InvocationError ℚ :=
  match args.int_arg, args.float_arg, args.dict_arg with
  | some i, some f, some _ => .ok ((i : ℚ) * f)
  | _, _, _ => .error (.validation (missingFields args) "Field required")

/-- The Python class name of an error, `type(e)` in the diagnostic
f-string. -/
def errTypeName : InvocationError → String
  | .validation _ _ => "ValidationError"
  | .execution _ => "ExecutionError"

/-- The string conversion `str(e)` of a structured error; total, since the
pipeline errors are well-formed values. -/
def errStr : InvocationError → String
  | .validation missing msg => String.intercalate ", " missing ++ ": " ++ msg
  | .execution msg => msg

/-- Rendering of an args dict into the diagnostic message, standing in for
the Python `repr` of the dict interpolated by the f-string. -/
def reprArgs (args : ToolArgs) : String :=
  (match args.int_arg with
    | none => "int_arg missing"
    | some i => "int_arg " ++ toString i) ++ ", " ++
  (match args.float_arg with
    | none => "float_arg missing"
    | some f => "float_arg " ++ toString f.num ++ "/" ++ toString f.den) ++ ", " ++
  (match args.dict_arg with
    | none => "dict_arg missing"
    | some _ => "dict_arg present")

/-- The diagnostic message built by the except-branch of
`try_except_tool`: the text of the f-string with the rendered arguments,
the error type and the error detail interpolated in place of its three
interpolation sites. -/
def diag (argsRepr typeName detail : String) : String :=
  "Calling tool with arguments:\n\n" ++ argsRepr ++
    "\n\nraised the following error:\n\n" ++ typeName ++ ": " ++ detail

/-- An arbitrary Python exception as seen by an except-branch: its type
name and the result of `str(e)`.  A malformed exception — one whose own
string conversion raises — is modelled by `strResult = none`; evaluating
the diagnostic f-string on such an exception propagates that secondary
failure instead of producing a string. -/
structure PyError where
  typeName : String
  strResult : Option String
  deriving DecidableEq

/-- The Error Translator extracted from the except-branch of
`try_except_tool`: evaluate the diagnostic f-string on the rendered
arguments and the caught exception.  The result is `none` exactly when the
string conversion of the exception itself fails, in which case the source
f-string raises rather than returning a message. -/
def translate (argsRepr : String) (e : PyError) : Option String :=
  e.strResult.map (fun d => diag argsRepr e.typeName d)

/-- `try_except_tool` from the source: invoke `complex_tool` on the args;
on success the result of `complex_tool.invoke` is discarded and the
function falls off its end, returning Python `None` (modelled by `none`);
on an exception the diagnostic string is returned. -/
def try_except_tool (tool_args : ToolArgs) : Option String :=
  match complex_tool_invoke tool_args with
  | .ok _ => none
  | .error e => some (diag (reprArgs tool_args) (errTypeName e) (errStr e))

/-- A tool call emitted by the model: tool name, arguments and the
optional correlation id (`ToolCall.id` is optional in langchain-core). -/
structure ToolCall where
  name : String
  args : ToolArgs
  id : Option String
  deriving DecidableEq

/-- `CustomToolException` from the source: carries the failing tool call
and the underlying exception. -/
structure CustomToolException where
  tool_call : ToolCall
  exception : InvocationError
  deriving DecidableEq

/-- `tool_custom_exception` from the source: invoke `complex_tool` on the
arguments of the first tool call of the model message; on failure raise
`CustomToolException(msg.tool_calls[0], e)`. -/
def tool_custom_exception (tc : ToolCall) : Except CustomToolException ℚ :=
  match complex_tool_invoke tc.args with
  | .ok r => .ok r
  | .error e => .error { tool_call := tc, exception := e }

/-- Chat history messages built by `exception_to_messages`. -/
inductive Message where
  | ai (content : String) (tool_calls : List ToolCall)
  | toolMsg (tool_call_id : String) (content : String)
  | human (content : String)
  deriving DecidableEq

/-- The corrective instruction appended by `exception_to_messages`. -/
def retryInstruction : String :=
  "The last tool call raised an exception. Try calling the tool again with corrected arguments. Do not repeat mistakes."

/-- The inputs dict flowing through the self-correcting chain: the
original "input" entry, the optional "exception" entry installed by the
fallback machinery, and the optional "last_output" entry installed by
`exception_to_messages`.  Python dicts are mutated in place; in this
embedding every mutating step returns the post-state of the dict, and
because the callee receives an alias of the very dict the caller holds,
that post-state is also what the caller's original reference sees after
the call. -/
structure Inputs where
  input : String
  exception : Option CustomToolException
  last_output : Option (List Message)
  deriving DecidableEq

/-- `exception_to_messages` from the source.  `inputs.pop("exception")`
mutates the dict, removing the entry, and raises `KeyError` when it is
absent; the `ToolMessage` is built with
`tool_call_id=exception.tool_call["id"]`, which fails when the tool call
carries no id (the id is the identifier correlating the failure, and
`ToolMessage` requires it); finally `inputs["last_output"] = messages`
mutates the dict again and the same dict object is returned. -/
def exception_to_messages (inputs : Inputs) : Except String Inputs :=
  match inputs.exception with
  | none => .error "KeyError: exception"
  | some exc =>
    match exc.tool_call.id with
    | none => .error "ValidationError: tool_call_id missing"
    | some cid =>
      .ok { input := inputs.input
            exception := none
            last_output := some
              [ .ai "" [exc.tool_call]
              , .toolMsg cid (errStr exc.exception)
              , .human retryInstruction ] }

/-! ### Fallback Chain (spec section 4.3)

`chain_with_fallback` in the source is built with `Runnable.with_fallbacks`,
whose implementation (langchain-core `RunnableWithFallbacks`) is not among
the source files of this repository; the Fallback Chain below is therefore
modelled from the specification contract. -/

/-- Modelled from the spec: the tail of `run_with_fallbacks` — try the
remaining fallbacks strictly in order, each invoked on the identical
original `request`; return the first success; when every remaining
fallback fails, surface the error of the last one tried (for an empty
remainder, the error `e` already in hand).  The first component records,
in order, the request each invoked operation actually received. -/
def fallbacksAux {Req E R : Type} (request : Req) :
    List (Req → Except E R) → E → List Req × Except E R
  | [], e => ([], .error e)
  | op :: rest, _ =>
    match op request with
    | .ok r => ([request], .ok r)
    | .error e =>
      let t := fallbacksAux request rest e
      (request :: t.1, t.2)

/-- Modelled from the spec:
`run_with_fallbacks(primary, fallbacks, request)` — invoke the primary on
the request; on success return its result without touching any fallback;
on failure try the fallbacks strictly in order, each on the identical
original request, surfacing the last error when all fail.  The first
component is the trace of requests passed to the operations actually
invoked, primary first. -/
def run_with_fallbacks {Req E R : Type} (primary : Req → Except E R)
    (fallbacks : List (Req → Except E R)) (request : Req) :
    List Req × Except E R :=
  match primary request with
  | .ok r => ([request], .ok r)
  | .error e =>
    let t := fallbacksAux request fallbacks e
    (request :: t.1, t.2)

/-! ### Context-Augmented Retry (spec section 4.4)

`self_correcting_chain` in the source is built with
`chain.with_fallbacks([exception_to_messages | chain], exception_key="exception")`;
again the combinator implementation is not among the source files, so the
retry pipeline is modelled from the specification contract, while the
augmentation step is the source `exception_to_messages`. -/

/-- Failure surfaced by the retry pipeline: `ExhaustedError` carrying the
final `InvocationError` after the attempt budget ran out, or a directly
surfaced original error (the fail-closed path taken when the augmentation
cannot be constructed). -/
inductive RetryFailure (E : Type) where
  | exhaustedError (final : E)
  | surfacedError (original : E)
  deriving DecidableEq

/-- Terminal state of a pipeline invocation (spec state machine:
`Succeeded` / `Failed`). -/
inductive TerminalState (E R : Type) where
  | succeeded (result : R)
  | failed (error : RetryFailure E)
  deriving DecidableEq

/-- Modelled from the spec: one attempt of Context-Augmented Retry, with
`m` further attempts allowed after the current one.  Invoke the operation;
on success, `Succeeded`; on failure with no attempt remaining, `Failed`
with `ExhaustedError` carrying that final error; on failure with attempts
remaining, derive the augmentation — if it cannot be constructed, fail
closed surfacing the original error, otherwise re-invoke on the augmented
request.  Returns how many times the operation was invoked, the error of
the last invocation when the run did not end in success, and the terminal
state. -/
def retryAux {Req E R : Type} (op : Req → Except E R)
    (augment : Req → E → Option Req) :
    Nat → Req → Nat × Option E × TerminalState E R
  | 0, req =>
    match op req with
    | .ok r => (1, none, .succeeded r)
    | .error e => (1, some e, .failed (.exhaustedError e))
  | m + 1, req =>
    match op req with
    | .ok r => (1, none, .succeeded r)
    | .error e =>
      match augment req e with
      | none => (1, some e, .failed (.surfacedError e))
      | some req2 =>
        let rest := retryAux op augment m req2
        (rest.1 + 1, rest.2.1, rest.2.2)

/-- Modelled from the spec:
`retry_with_context(operation, request, max_attempts)` for a positive
attempt budget: up to `max_attempts` invocations of the operation, each
failure (while budget remains) augmented by `augment` before the next
attempt.  Returns the invocation count, the error of the last invocation
when the run did not succeed, and the terminal state. -/
def retry_with_context {Req E R : Type} (op : Req → Except E R)
    (augment : Req → E → Option Req) (request : Req) (max_attempts : Nat) :
    Nat × Option E × TerminalState E R :=
  retryAux op augment (max_attempts - 1) request

/-- The augmentation step of the self-correcting chain, assembled from the
source `exception_to_messages`: the fallback machinery installs the caught
exception under the "exception" key of the inputs dict and the fallback
pipeline then runs `exception_to_messages`; the augmented request exists
exactly when that call succeeds. -/
def augment_via_messages (inputs : Inputs) (exc : CustomToolException) :
    Option Inputs :=
  (exception_to_messages { inputs with exception := some exc }).toOption

/-! ### Pipeline Driver (spec section 4.5)

The driver composes the retry and fallback policies.  To make its
idempotence claim non-vacuous, Operations are modelled as oracles indexed
by a global invocation counter, so that an Operation is allowed to behave
differently on later invocations (as a live model call may); a purely
deterministic Operation is one whose behaviour does not depend on the
counter. -/

/-- A fallible Operation whose behaviour may depend on the global
invocation counter. -/
def OracleOp (Req E R : Type) : Type := Nat → Req → Except E R

/-- An Operation is purely deterministic when its behaviour does not
depend on the invocation counter. -/
def Deterministic {Req E R : Type} (op : OracleOp Req E R) : Prop :=
  ∀ i j req, op i req = op j req

/-- Modelled from the spec: the fallback loop of the driver over
counter-indexed operations, threading the invocation counter. -/
def oracleFallbacks {Req E R : Type} (request : Req) :
    List (OracleOp Req E R) → E → Nat → Nat × Except E R
  | [], e, k => (k, .error e)
  | op :: rest, _, k =>
    match op k request with
    | .ok r => (k + 1, .ok r)
    | .error e => oracleFallbacks request rest e (k + 1)

/-- Modelled from the spec: the retry loop of the driver over a
counter-indexed operation, with `m` further attempts allowed after the
current one, threading the invocation counter. -/
def oracleRetry {Req E R : Type} (op : OracleOp Req E R)
    (augment : Req → E → Option Req) :
    Nat → Req → Nat → Nat × Except E R
  | 0, req, k =>
    match op k req with
    | .ok r => (k + 1, .ok r)
    | .error e => (k + 1, .error e)
  | m + 1, req, k =>
    match op k req with
    | .ok r => (k + 1, .ok r)
    | .error e =>
      match augment req e with
      | none => (k + 1, .error e)
      | some req2 => oracleRetry op augment m req2 (k + 1)

/-- Modelled from the spec: the Pipeline Driver
`execute(primary, fallbacks, max_attempts, request)` — retry the primary
under the context augmentation up to `max_attempts` times, then try each
fallback in order on the original request; when every strategy is
exhausted, fail with `ExhaustedError` carrying the final error.  `k` is
the global invocation counter at entry; the driver returns the counter
after the run together with the terminal state. -/
def execute {Req E R : Type} (primary : OracleOp Req E R)
    (fallbacks : List (OracleOp Req E R)) (augment : Req → E → Option Req)
    (max_attempts : Nat) (request : Req) (k : Nat) :
    Nat × TerminalState E R :=
  match oracleRetry primary augment (max_attempts - 1) request k with
  | (k2, .ok r) => (k2, .succeeded r)
  | (k2, .error e) =>
    match oracleFallbacks request fallbacks e k2 with
    | (k3, .ok r) => (k3, .succeeded r)
    | (k3, .error e2) => (k3, .failed (.exhaustedError e2))

/-! ### The recorded scenario (spec section 8)

The notebook invokes the self-correcting chain on the request asking for
arguments 5, 2.1 and an empty dictionary.  On the bare request the model
emits a tool call missing `dict_arg` (the recorded ValidationError); on
the augmented request, whose `last_output` carries the failure context,
the recorded rerun emits the corrected call with all three arguments and
the chain returns 10.5. -/

/-- The first, incomplete tool-call arguments recorded in the notebook:
`int_arg 5`, `float_arg 2.1`, `dict_arg` absent. -/
def scenario_first_args : ToolArgs :=
  { int_arg := some 5, float_arg := some (21 / 10 : ℚ), dict_arg := none }

/-- The corrected tool-call arguments supplied on the retry:
`int_arg 5`, `float_arg 2.1`, `dict_arg` the empty dict. -/
def scenario_retry_args : ToolArgs :=
  { int_arg := some 5, float_arg := some (21 / 10 : ℚ), dict_arg := some [] }

/-- The first tool call emitted by the model, with its correlation id. -/
def scenario_call1 : ToolCall :=
  { name := "complex_tool", args := scenario_first_args, id := some "call_1" }

/-- The corrected tool call emitted on the rerun. -/
def scenario_call2 : ToolCall :=
  { name := "complex_tool", args := scenario_retry_args, id := some "call_2" }

/-- The original request of the scenario (the notebook wording of the
"input" entry, its contraction spelled out). -/
def scenario_request : Inputs :=
  { input := "use complex tool. the args are 5, 2.1, empty dictionary. do not forget dict_arg"
    exception := none
    last_output := none }

/-- The chain `prompt | llm_with_tools | tool_custom_exception` in the
recorded scenario: on a request without failure context the model emits
the incomplete call, on an augmented request it emits the corrected call;
either way the emitted call is executed by `tool_custom_exception` from
the source. -/
def scenario_op (req : Inputs) : Except CustomToolException ℚ :=
  match req.last_output with
  | none => tool_custom_exception scenario_call1
  | some _ => tool_custom_exception scenario_call2

/-! ## Helper lemmas -/

/-- When every operation in the list fails on the request, the fallback
loop surfaces the error of the last operation, whatever error it entered
with and whatever the earlier operations raised. -/
lemma fallbacksAux_all_fail {Req E R : Type} (request : Req)
    (init : List (Req → Except E R)) (lastOp : Req → Except E R)
    (eL : E)
    (hinit : ∀ op ∈ init, ∃ e, op request = .error e)
    (hlast : lastOp request = .error eL) :
    ∀ e0 : E, (fallbacksAux request (init ++ [lastOp]) e0).2 = .error eL := by
  induction init with
  | nil => intro e0; simp [fallbacksAux, hlast]
  | cons op rest ih =>
    intro e0
    obtain ⟨e, he⟩ := hinit op (List.mem_cons_self op rest)
    have hrest : ∀ o ∈ rest, ∃ e2, o request = .error e2 :=
      fun o ho => hinit o (List.mem_cons_of_mem _ ho)
    simp [fallbacksAux, he, ih hrest e]

/-- Every request recorded in the fallback-loop trace is the original
request. -/
lemma fallbacksAux_trace_eq {Req E R : Type} (request : Req) :
    ∀ (l : List (Req → Except E R)) (e : E) (r : Req),
      r ∈ (fallbacksAux request l e).1 → r = request := by
  intro l
  induction l with
  | nil => intro e r hr; simp [fallbacksAux] at hr
  | cons op rest ih =>
    intro e r hr
    cases hop : op request with
    | ok v => simp [fallbacksAux, hop] at hr; exact hr
    | error e2 =>
      simp [fallbacksAux, hop] at hr
      rcases hr with hr | hr
      · exact hr
      · exact ih e2 r hr

/-- Attempt-budget accounting of the retry loop: with `m` further attempts
allowed after the current one, the operation is invoked at most `m + 1`
times, and whenever the whole budget is consumed and the last invocation
failed, the run terminates as `ExhaustedError` carrying that last
error. -/
lemma retryAux_spec {Req E R : Type} (op : Req → Except E R)
    (augment : Req → E → Option Req) :
    ∀ (m : Nat) (req : Req),
      (retryAux op augment m req).1 ≤ m + 1 ∧
        ∀ e : E, (retryAux op augment m req).1 = m + 1 →
          (retryAux op augment m req).2.1 = some e →
          (retryAux op augment m req).2.2 = .failed (.exhaustedError e) := by
  intro m
  induction m with
  | zero =>
    intro req
    cases hop : op req with
    | ok v => simp [retryAux, hop]
    | error e0 => simp [retryAux, hop]
  | succ m ih =>
    intro req
    cases hop : op req with
    | ok v => simp [retryAux, hop]
    | error e0 =>
      cases haug : augment req e0 with
      | none => simp [retryAux, hop, haug]
      | some req2 =>
        have h := ih req2
        simp [retryAux, hop, haug]
        constructor
        · have := h.1
          omega
        · intro e hcount hlast
          exact h.2 e (by omega) hlast

/-- A deterministic operation makes the retry loop of the driver
insensitive to the global invocation counter. -/
lemma oracleRetry_det {Req E R : Type} (op : OracleOp Req E R)
    (augment : Req → E → Option Req) (hdet : Deterministic op) :
    ∀ (fuel : Nat) (req : Req) (k1 k2 : Nat),
      (oracleRetry op augment fuel req k1).2 =
        (oracleRetry op augment fuel req k2).2 := by
  intro fuel
  induction fuel with
  | zero =>
    intro req k1 k2
    simp only [oracleRetry]
    rw [hdet k1 k2 req]
    cases op k2 req with
    | ok v => simp
    | error e => simp
  | succ m ih =>
    intro req k1 k2
    simp only [oracleRetry]
    rw [hdet k1 k2 req]
    cases op k2 req with
    | ok v => simp
    | error e =>
      dsimp only
      cases augment req e with
      | none => simp
      | some req2 => exact ih req2 (k1 + 1) (k2 + 1)

/-- Deterministic fallbacks make the fallback loop of the driver
insensitive to the global invocation counter. -/
lemma oracleFallbacks_det {Req E R : Type} (request : Req) :
    ∀ (l : List (OracleOp Req E R)), (∀ op ∈ l, Deterministic op) →
      ∀ (e : E) (k1 k2 : Nat),
        (oracleFallbacks request l e k1).2 =
          (oracleFallbacks request l e k2).2 := by
  intro l
  induction l with
  | nil => intro _ e k1 k2; simp [oracleFallbacks]
  | cons op rest ih =>
    intro hdet e k1 k2
    simp only [oracleFallbacks]
    rw [hdet op (List.mem_cons_self op rest) k1 k2 request]
    cases op k2 request with
    | ok v => simp
    | error e2 => exact ih (fun o ho => hdet o (List.mem_cons_of_mem _ ho)) e2 (k1 + 1) (k2 + 1)

/-! ## Claim theorems -/

/-- C1: for every request on which the primary and every fallback in the
ordered chain fail, `run_with_fallbacks` fails, and the error it surfaces
equals the error raised by the last fallback in the chain — the errors of
the primary (`e0`) and of every earlier fallback are discarded (the
conclusion does not depend on them). -/
theorem fallback_chain_surfaces_last_error {Req E R : Type}
    (primary lastOp : Req → Except E R) (init : List (Req → Except E R))
    (request : Req) (e0 eL : E)
    (hp : primary request = .error e0)
    (hinit : ∀ op ∈ init, ∃ e, op request = .error e)
    (hlast : lastOp request = .error eL) :
    (run_with_fallbacks primary (init ++ [lastOp]) request).2 = .error eL := by
  simp [run_with_fallbacks, hp,
    fallbacksAux_all_fail request init lastOp eL hinit hlast e0]

/-- Witness for C1: a primary and a first fallback failing with their own
errors, a last fallback failing with "f2"; the surfaced error is "f2". -/
theorem fallback_chain_surfaces_last_error_witness :
    (run_with_fallbacks (fun _ : Nat => (Except.error "p" : Except String Nat))
        ([fun _ => .error "f1"] ++ [fun _ => .error "f2"]) 0).2 =
      .error "f2" :=
  fallback_chain_surfaces_last_error _ _ _ 0 "p" "f2" rfl
    (by
      intro op hop
      rw [List.mem_singleton] at hop
      subst hop
      exact ⟨"f1", rfl⟩)
    rfl

/-- C3: the trace of requests passed to the operations invoked by
`run_with_fallbacks` — primary first, then whichever fallbacks run — is a
constant list of the original request: no fallback ever receives a request
mutated or augmented by a prior failure. -/
theorem fallbacks_receive_original_request {Req E R : Type}
    (primary : Req → Except E R) (fallbacks : List (Req → Except E R))
    (request : Req) :
    (run_with_fallbacks primary fallbacks request).1 =
      List.replicate (run_with_fallbacks primary fallbacks request).1.length
        request := by
  refine List.eq_replicate_iff.mpr ⟨rfl, ?_⟩
  intro r hr
  cases hp : primary request with
  | ok v => simp [run_with_fallbacks, hp] at hr; exact hr
  | error e =>
    simp [run_with_fallbacks, hp] at hr
    rcases hr with hr | hr
    · exact hr
    · exact fallbacksAux_trace_eq request fallbacks e r hr

/-- C4: when the primary succeeds on a request, `run_with_fallbacks`
returns the primary's result and its invocation trace contains exactly the
primary's call — no fallback is invoked, however many are configured. -/
theorem primary_success_skips_fallbacks {Req E R : Type}
    (primary : Req → Except E R) (fallbacks : List (Req → Except E R))
    (request : Req) (v : R)
    (hp : primary request = .ok v) :
    run_with_fallbacks primary fallbacks request = ([request], .ok v) := by
  simp [run_with_fallbacks, hp]

/-- Witness for C4: a succeeding primary next to a fallback that would
fail; the chain returns the primary's result after a single invocation. -/
theorem primary_success_skips_fallbacks_witness :
    run_with_fallbacks (fun _ : Nat => (Except.ok 7 : Except String Nat))
        [fun _ => .error "f1"] 5 =
      ([5], .ok 7) :=
  primary_success_skips_fallbacks _ _ 5 7 rfl

/-- C2: with a positive attempt budget `N`, `retry_with_context` invokes
the operation at most `N` times, and whenever the whole budget was
consumed and the last (`N`th) invocation failed, the pipeline terminates
in the `Failed` state with an `ExhaustedError` carrying that final
`InvocationError`. -/
theorem retry_invokes_at_most_budget {Req E R : Type}
    (op : Req → Except E R) (augment : Req → E → Option Req)
    (request : Req) (N : Nat) (hN : 1 ≤ N) :
    (retry_with_context op augment request N).1 ≤ N ∧
      ∀ e : E, (retry_with_context op augment request N).1 = N →
        (retry_with_context op augment request N).2.1 = some e →
        (retry_with_context op augment request N).2.2 =
          .failed (.exhaustedError e) := by
  have h := retryAux_spec op augment (N - 1) request
  have hN1 : N - 1 + 1 = N := Nat.succ_pred_eq_of_pos hN
  rw [retry_with_context]
  rw [hN1] at h
  exact h

/-- Witness for C2: an operation that always fails, with an augmentation
that always exists, under `max_attempts = 2`: exactly two invocations
happen and the run ends `Failed` with `ExhaustedError` carrying the final
error. -/
theorem retry_invokes_at_most_budget_witness :
    (retry_with_context (fun _ : Nat => (Except.error "boom" : Except String Nat))
          (fun r _ => some r) 0 2).1 ≤ 2 ∧
      (retry_with_context (fun _ : Nat => (Except.error "boom" : Except String Nat))
            (fun r _ => some r) 0 2).2.2 =
        .failed (.exhaustedError "boom") :=
  ⟨(retry_invokes_at_most_budget _ _ 0 2 (by decide)).1,
    (retry_invokes_at_most_budget _ _ 0 2 (by decide)).2 "boom" rfl rfl⟩

/-- C5: when the operation fails and the failure-context augmentation
built from the source `exception_to_messages` cannot be constructed —
here because the tool call of the failure carries no id, the identifier
`exception.tool_call["id"]` needed to correlate the failure — the retry
fails closed after that single invocation, surfacing the original error
to the caller rather than attempting a malformed retry. -/
theorem retry_fails_closed_without_augmentation
    (op : Inputs → Except CustomToolException ℚ) (request : Inputs)
    (N : Nat) (e : CustomToolException)
    (hN : 2 ≤ N) (hop : op request = .error e)
    (hid : e.tool_call.id = none) :
    retry_with_context op augment_via_messages request N =
      (1, some e, .failed (.surfacedError e)) := by
  obtain ⟨m, rfl⟩ : ∃ m, N = m + 2 := ⟨N - 2, by omega⟩
  have haug : augment_via_messages request e = none := by
    simp [augment_via_messages, exception_to_messages, hid, Except.toOption]
  have hfuel : m + 2 - 1 = m + 1 := by omega
  rw [retry_with_context, hfuel]
  simp [retryAux, hop, haug]

/-- The failure of the recorded scenario, but emitted by a tool call that
carries no id: the augmentation cannot build its `ToolMessage`. -/
def uncorrelated_exception : CustomToolException :=
  { tool_call := { name := "complex_tool", args := scenario_first_args, id := none }
    exception := .validation ["dict_arg"] "Field required" }

/-- Witness for C5: an operation raising the uncorrelated exception under
`max_attempts = 2` fails closed on the first invocation, surfacing that
original error. -/
theorem retry_fails_closed_without_augmentation_witness :
    retry_with_context
        (fun _ => (.error uncorrelated_exception : Except CustomToolException ℚ))
        augment_via_messages scenario_request 2 =
      (1, some uncorrelated_exception,
        .failed (.surfacedError uncorrelated_exception)) :=
  retry_fails_closed_without_augmentation _ scenario_request 2
    uncorrelated_exception (by decide) rfl rfl

/-- C6: the recorded scenario.  The spec names the required fields
`a : int`, `b : float`, `c : dict`; in the source they are `int_arg`,
`float_arg` and `dict_arg` of `complex_tool`.  The request supplying only
`a = 5` and `b = 2.1` fails with the ValidationError naming the missing
field `dict_arg`; under `max_attempts = 2`, with the re-invocation
supplying the corrected arguments including the empty dict, the second
attempt returns `a * b = 10.5` (the rational `21 / 2`) and the pipeline
terminates in the `Succeeded` state after exactly two invocations. -/
theorem scenario_missing_field_then_retry_succeeds :
    complex_tool_invoke scenario_first_args =
        .error (.validation ["dict_arg"] "Field required") ∧
      retry_with_context scenario_op augment_via_messages scenario_request 2 =
        (2, none, .succeeded (21 / 2 : ℚ)) := by
  constructor
  · rfl
  · simp [retry_with_context, retryAux, scenario_op, scenario_request,
      augment_via_messages, exception_to_messages, tool_custom_exception,
      complex_tool_invoke, scenario_call1, scenario_call2,
      scenario_first_args, scenario_retry_args, missingFields, Except.toOption]
    norm_num

/-- A concrete request dict holding the recorded failure under its
"exception" key, about to be augmented by `exception_to_messages`. -/
def mutation_probe : Inputs :=
  { input := "use complex tool. the args are 5, 2.1, empty dictionary. do not forget dict_arg"
    exception := some { tool_call := scenario_call1
                        exception := .validation ["dict_arg"] "Field required" }
    last_output := none }

/-- Counterexample to C7: `exception_to_messages` succeeds on
`mutation_probe`, yet the dict it returns — which, by the in-place
semantics of `inputs.pop` and of the item assignment, is the very dict the
caller passed in — differs from the pre-call value: the original request
is changed by the augmentation, so deriving and appending the failure
context is not functional with respect to the original request. -/
theorem augmentation_mutates_request_counterexample :
    (exception_to_messages mutation_probe).isOk = true ∧
      exception_to_messages mutation_probe ≠ .ok mutation_probe := by
  constructor
  · rfl
  · simp [exception_to_messages, mutation_probe, scenario_call1]

/-- C7 as amended: `exception_to_messages` mutates the request dict in
place — after a successful augmentation the dict the caller holds has lost
its "exception" entry and gained a "last_output" entry with the three
history messages — while the original "input" entry is left unchanged. -/
theorem augmentation_updates_request_in_place
    (inputs : Inputs) (exc : CustomToolException) (cid : String)
    (hexc : inputs.exception = some exc)
    (hid : exc.tool_call.id = some cid) :
    exception_to_messages inputs =
      .ok { input := inputs.input
            exception := none
            last_output := some
              [ .ai "" [exc.tool_call]
              , .toolMsg cid (errStr exc.exception)
              , .human retryInstruction ] } := by
  simp [exception_to_messages, hexc, hid]

/-- Witness for the amended C7, at the concrete probe dict. -/
theorem augmentation_updates_request_in_place_witness :
    exception_to_messages mutation_probe =
      .ok { input := mutation_probe.input
            exception := none
            last_output := some
              [ .ai "" [scenario_call1]
              , .toolMsg "call_1"
                  (errStr (.validation ["dict_arg"] "Field required"))
              , .human retryInstruction ] } :=
  augmentation_updates_request_in_place mutation_probe
    { tool_call := scenario_call1
      exception := .validation ["dict_arg"] "Field required" }
    "call_1" rfl rfl

/-- A malformed exception: its own string conversion raises, so `str(e)`
yields no string. -/
def malformed_error : PyError := { typeName := "ValueError", strResult := none }

/-- Counterexample to C8: on the malformed error the translator produces
no diagnostic string at all — evaluating the source f-string propagates
the secondary failure of `str(e)` instead of returning a best-effort
generic message, so `translate` is not total on malformed errors. -/
theorem translate_malformed_counterexample :
    translate "tool args" malformed_error = none := rfl

/-- C8 as amended: `translate` is a deterministic pure function and, for
every error whose string conversion succeeds, returns the diagnostic
message embedding the original arguments rendering and the error detail;
on a malformed error, whose string conversion itself fails, it propagates
that secondary failure (no string is produced) rather than falling back to
a generic message. -/
theorem translate_embeds_request_and_detail (argsRepr tn d : String) :
    translate argsRepr { typeName := tn, strResult := some d } =
        some ("Calling tool with arguments:\n\n" ++ argsRepr ++
          "\n\nraised the following error:\n\n" ++ tn ++ ": " ++ d) ∧
      translate argsRepr { typeName := tn, strResult := none } = none :=
  ⟨rfl, rfl⟩

/-- C9: invoking the Pipeline Driver twice with the same request, the same
configuration and purely deterministic Operations yields the same terminal
state both times.  The second run starts at whatever global invocation
counter the first run left behind, so equality of outcomes across all
counter positions `k1`, `k2` covers the repeated invocation. -/
theorem driver_idempotent_for_deterministic_ops {Req E R : Type}
    (primary : OracleOp Req E R) (fallbacks : List (OracleOp Req E R))
    (augment : Req → E → Option Req) (max_attempts : Nat) (request : Req)
    (hdp : Deterministic primary)
    (hdf : ∀ op ∈ fallbacks, Deterministic op)
    (k1 k2 : Nat) :
    (execute primary fallbacks augment max_attempts request k1).2 =
      (execute primary fallbacks augment max_attempts request k2).2 := by
  have hr := oracleRetry_det primary augment hdp (max_attempts - 1) request k1 k2
  rcases h1 : oracleRetry primary augment (max_attempts - 1) request k1 with ⟨a1, r1⟩
  rcases h2 : oracleRetry primary augment (max_attempts - 1) request k2 with ⟨a2, r2⟩
  rw [h1, h2] at hr
  simp only at hr
  subst hr
  unfold execute
  rw [h1, h2]
  cases r1 with
  | ok v => simp
  | error e =>
    have hf := oracleFallbacks_det request fallbacks hdf e a1 a2
    rcases hf1 : oracleFallbacks request fallbacks e a1 with ⟨b1, s1⟩
    rcases hf2 : oracleFallbacks request fallbacks e a2 with ⟨b2, s2⟩
    rw [hf1, hf2] at hf
    simp only at hf
    subst hf
    cases s1 with
    | ok v => simp [hf1, hf2]
    | error e2 => simp [hf1, hf2]

/-- Witness for C9: a deterministic always-failing primary with one
deterministic succeeding fallback; two driver runs starting at counters 0
and 7 reach the same terminal state. -/
theorem driver_idempotent_for_deterministic_ops_witness :
    (execute (fun _ (_ : Nat) => (Except.error "p" : Except String Nat))
          [fun _ _ => .ok 3] (fun r _ => some r) 1 0 0).2 =
      (execute (fun _ (_ : Nat) => (Except.error "p" : Except String Nat))
            [fun _ _ => .ok 3] (fun r _ => some r) 1 0 7).2 := by
  refine driver_idempotent_for_deterministic_ops _ _ _ 1 0 ?_ ?_ 0 7
  · exact fun _ _ _ => rfl
  · intro op hop
    rw [List.mem_singleton] at hop
    subst hop
    exact fun _ _ _ => rfl

/-- C10: on the success path — whenever `complex_tool.invoke` succeeds on
the args — `try_except_tool` returns no value (the success result `v` is
discarded and Python returns `None`); a value is returned only on the
exception path, and it is the diagnostic string for the raised error. -/
theorem try_except_tool_discards_success (args : ToolArgs) :
    (∀ v : ℚ, complex_tool_invoke args = .ok v →
        try_except_tool args = none) ∧
      ∀ e : InvocationError, complex_tool_invoke args = .error e →
        try_except_tool args =
          some (diag (reprArgs args) (errTypeName e) (errStr e)) := by
  constructor
  · intro v h
    simp [try_except_tool, h]
  · intro e h
    simp [try_except_tool, h]

/-- Witness for C10: on the corrected arguments the tool succeeds with
10.5 and the wrapper yields `none`; on the incomplete arguments it fails
and the wrapper yields the diagnostic string. -/
theorem try_except_tool_discards_success_witness :
    try_except_tool scenario_retry_args = none ∧
      try_except_tool scenario_first_args =
        some (diag (reprArgs scenario_first_args) "ValidationError"
          (errStr (.validation ["dict_arg"] "Field required"))) :=
  ⟨(try_except_tool_discards_success scenario_retry_args).1 (21 / 2)
      (by
        simp [complex_tool_invoke, scenario_retry_args]
        norm_num),
    (try_except_tool_discards_success scenario_first_args).2
      (.validation ["dict_arg"] "Field required") rfl⟩

end ToolErrors
